import Mathlib

/-!
# Verification of the customer-service repository

A shallow embedding of the Python sources (`app.py`, `errors.py`,
`logger_config.py`, `utils.py`, `db.py`) of the customer-service
microservice, together with theorems settling the specification claims.

JSON values and Python dicts are modelled with an inductive `JVal` and
association lists `List (String × JVal)` (Python dicts have unique keys
and preserve insertion order; in-place update keeps a key's position and
a fresh key is appended at the end, which `setKey` mirrors).  In-place
mutation of dicts is modelled by explicit state passing: a handler that
mutates the store returns the new store.  The MongoDB collection is
modelled as a `List Customer` in insertion order; the outcome of the
external `insert_one` call (success / `DuplicateKeyError` / other
failure) is an explicit parameter, and each handler additionally reports
how many collection operations it executed.
-/

set_option autoImplicit false

namespace CustomerService

/-- JSON / BSON-document values (after the `MongoJSONProvider` of
`utils.py`, ObjectIds and datetimes are serialized as strings). -/
inductive JVal where
  | null
  | str (s : String)
  | num (n : Int)
  | bool (b : Bool)
  | arr (xs : List JVal)
  | dict (m : List (String × JVal))

/-- Python `d.get(k)` / `k in d` on a dict modelled as an assoc list:
first binding of the key. -/
def getKey (m : List (String × JVal)) (k : String) : Option JVal :=
  match m with
  | [] => none
  | (k', v) :: rest => if k' = k then some v else getKey rest k

/-- Python `d[k] = v`: replace the value at the key's existing position,
or append a fresh binding at the end. -/
def setKey (m : List (String × JVal)) (k : String) (v : JVal) :
    List (String × JVal) :=
  match m with
  | [] => [(k, v)]
  | (k', v') :: rest =>
      if k' = k then (k', v) :: rest else (k', v') :: setKey rest k v

/-! ## `logger_config.py`: PII masking and the structlog pipeline -/

/-- `PII_FIELDS = {'email', 'phone', 'line1'}` (a set; iteration order is
irrelevant because the updates touch distinct keys). -/
def PII_FIELDS : List String := ["email", "phone", "line1"]

/-- The inner loop of `mask_pii_processor`:
`for key in PII_FIELDS: if key in body: body[key] = "REDACTED"`. -/
def maskBodyKeys : List String → List (String × JVal) → List (String × JVal)
  | [], body => body
  | k :: ks, body =>
      match getKey body k with
      | some _ => maskBodyKeys ks (setKey body k (.str "REDACTED"))
      | none => maskBodyKeys ks body

/-- One iteration of the outer loop of `mask_pii_processor`:
`body = event_dict.get(field_name); if isinstance(body, dict): ...`.
The Python code mutates the body dict in place; here the updated body is
written back to the (unique) key it was read from, which is the same
thing on dicts. -/
def maskField (ev : List (String × JVal)) (f : String) :
    List (String × JVal) :=
  match getKey ev f with
  | some (.dict m) => setKey ev f (.dict (maskBodyKeys PII_FIELDS m))
  | _ => ev

/-- `mask_pii_processor(logger, log_method_name, event_dict)` from
`logger_config.py` (the first two arguments are unused by the code). -/
def mask_pii_processor (ev : List (String × JVal)) : List (String × JVal) :=
  maskField (maskField ev "request_body") "response_body"

/-- `structlog.stdlib.add_logger_name`: stores the logger's name under
the `logger` key. -/
def add_logger_name (name : String) (ev : List (String × JVal)) :
    List (String × JVal) :=
  setKey ev "logger" (.str name)

/-- `structlog.stdlib.add_log_level`: stores the severity under the
`level` key. -/
def add_log_level (lvl : String) (ev : List (String × JVal)) :
    List (String × JVal) :=
  setKey ev "level" (.str lvl)

/-- `structlog.processors.TimeStamper(fmt="iso")`: stores an ISO-8601
timestamp under the `timestamp` key. -/
def timeStamperIso (ts : String) (ev : List (String × JVal)) :
    List (String × JVal) :=
  setKey ev "timestamp" (.str ts)

/-- The anonymous processor of `setup_logging`:
`lambda _, __, ed: {'correlation_id': request.headers.get('X-Correlation-Id')} if request else {}`.
`inFlight` models the truthiness of the `request` proxy and `hdr` the
optional header.  Note that the lambda's value REPLACES the event dict
handed to the next processor; the incoming `ed` is dropped. -/
def correlationProcessor (inFlight : Bool) (hdr : Option String)
    (_ev : List (String × JVal)) : List (String × JVal) :=
  if inFlight then
    [("correlation_id", match hdr with | some h => .str h | none => .null)]
  else
    []

/-- The processor chain configured in `setup_logging`
(`add_logger_name`, `add_log_level`, `TimeStamper(fmt="iso")`, the
correlation lambda, `mask_pii_processor`), in order.  Its result is what
`ProcessorFormatter.wrap_for_formatter` hands to the stdlib record; both
root-logger handlers — the console `StreamHandler` and the remote
`OTLPHandler` — format that same record, so both emission paths emit
exactly this event dict. -/
def structlogPipeline (name lvl ts : String) (inFlight : Bool)
    (hdr : Option String) (ev : List (String × JVal)) :
    List (String × JVal) :=
  mask_pii_processor
    (correlationProcessor inFlight hdr
      (timeStamperIso ts (add_log_level lvl (add_logger_name name ev))))

/-- Redaction property of a (possible) body field: if it is a mapping,
every redaction-set key it contains maps to the literal `"REDACTED"`. -/
def bodyMasked : Option JVal → Bool
  | some (.dict m) =>
      PII_FIELDS.all fun k =>
        match getKey m k with
        | some (.str s) => s == "REDACTED"
        | some _ => false
        | none => true
  | _ => true

/-- Redaction property of an emitted event: both well-known body fields
satisfy `bodyMasked`. -/
def redactionOk (ev : List (String × JVal)) : Bool :=
  bodyMasked (getKey ev "request_body") && bodyMasked (getKey ev "response_body")

/-! ## `errors.py`: error envelope and handlers, `app.py` middleware -/

/-- The uniform error envelope built by every handler in
`register_error_handlers`:
`{"error": {"code": ..., "message": ..., "correlationId": ...}}`. -/
def errorEnvelope (code message : String) (cid : JVal) : JVal :=
  .dict [("error", .dict [("code", .str code), ("message", .str message),
                          ("correlationId", cid)])]

/-- The structlog contextvars bound by `before_request` in `app.py`:
`clear_contextvars()` then `bind_contextvars(correlation_id=request.headers.get('X-Correlation-Id'), path=..., method=...)`.
A missing `X-Correlation-Id` header binds the Python value `None`. -/
def before_request_ctx (hdr : Option String) (path method : String) :
    List (String × JVal) :=
  [("correlation_id", match hdr with | some h => .str h | none => .null),
   ("path", .str path), ("method", .str method)]

/-- The correlation-id lookup shared by all three error handlers:
`get_contextvars().get('correlation_id', 'not-available')`. -/
def ctxCorrelationId (ctx : List (String × JVal)) : JVal :=
  (getKey ctx "correlation_id").getD (.str "not-available")

/-- `handle_api_error` from `errors.py`: body and HTTP status for a
raised `ApiError(message, status_code, code)`. -/
def handle_api_error (message : String) (status : Nat) (code : String)
    (ctx : List (String × JVal)) : JVal × Nat :=
  (errorEnvelope code message (ctxCorrelationId ctx), status)

/-- `handle_not_found` from `errors.py` (routing-level 404). -/
def handle_not_found (ctx : List (String × JVal)) : JVal × Nat :=
  (errorEnvelope "NOT_FOUND" "The requested resource was not found"
    (ctxCorrelationId ctx), 404)

/-- `handle_generic_error` from `errors.py`: the catch-all for unhandled
exceptions; the client-facing message is fixed, independent of the
exception. -/
def handle_generic_error (_excMessage : String)
    (ctx : List (String × JVal)) : JVal × Nat :=
  (errorEnvelope "INTERNAL_ERROR" "An unexpected error occurred"
    (ctxCorrelationId ctx), 500)

/-! ## `app.py`: data model and resource handlers -/

/-- Result of a request handler: either `return jsonify(body), status` or
`raise ApiError(message, status, code)` (translated to an envelope by
`handle_api_error`). -/
inductive HResult where
  | ok (status : Nat) (body : JVal)
  | apiError (message : String) (status : Nat) (code : String)

/-- HTTP status of a handler result (an `ApiError` is rendered by
`handle_api_error` with exactly its `status_code`). -/
def HResult.status : HResult → Nat
  | .ok s _ => s
  | .apiError _ s _ => s

/-- `bson.ObjectId(s)` succeeds on a string exactly when it is a 24
character hexadecimal string; otherwise it raises `InvalidId`. -/
def isValidObjectId (s : String) : Bool :=
  s.length == 24 &&
    s.data.all fun c =>
      c.isDigit || ('a' ≤ c && c ≤ 'f') || ('A' ≤ c && c ≤ 'F')

/-- An embedded address sub-document.  `oid` is the server-generated
`_id` (an ObjectId rendered as its hex string); `created_at` is the
`datetime.utcnow()` timestamp rendered in ISO format, as the
`MongoJSONProvider` serializes it. -/
structure Address where
  oid : String
  line1 : JVal
  area : JVal
  city : JVal
  pincode : JVal
  created_at : String

/-- A customer document of the `customers` collection. -/
structure Customer where
  oid : String
  name : JVal
  email : JVal
  phone : JVal
  addresses : List Address
  created_at : String

/-- The JSON rendering of an address sub-document (field order as built
in `create_address`). -/
def Address.toDoc (a : Address) : JVal :=
  .dict [("_id", .str a.oid), ("line1", a.line1), ("area", a.area),
         ("city", a.city), ("pincode", a.pincode),
         ("created_at", .str a.created_at)]

/-- The JSON rendering of a customer document (field order as built in
`create_customer`, with the store-generated `_id` first). -/
def Customer.toDoc (c : Customer) : JVal :=
  .dict [("_id", .str c.oid), ("name", c.name), ("email", c.email),
         ("phone", c.phone),
         ("addresses", .arr (c.addresses.map Address.toDoc)),
         ("created_at", .str c.created_at)]

/-- `db.customers.find_one({"_id": oid})`: first document whose `_id`
matches. -/
def find_one_by_id (store : List Customer) (oid : String) : Option Customer :=
  store.find? fun c => c.oid == oid

/-- Outcome of the external `db.customers.insert_one` call: success,
`DuplicateKeyError` (uniqueness-constraint violation), or any other
driver failure carrying the exception's message. -/
inductive InsertOutcome where
  | ok
  | dup
  | fail (msg : String)

/-- The body-validation condition of `create_customer`:
`not data or not 'name' in data or not 'email' in data or not 'phone' in data`
(an absent body parses to `None`; an empty dict is falsy). -/
def createBodyInvalid (data : Option (List (String × JVal))) : Bool :=
  match data with
  | none => true
  | some d =>
      d.isEmpty || (getKey d "name").isNone || (getKey d "email").isNone ||
        (getKey d "phone").isNone

/-- The `new_customer_doc` dict built by `create_customer` in `app.py`:
the three request fields plus an empty `addresses` list and the server
timestamp; the store generates `_id = newId` on insert. -/
def new_customer_doc (d : List (String × JVal)) (newId now : String) :
    Customer :=
  { oid := newId, name := (getKey d "name").getD .null,
    email := (getKey d "email").getD .null,
    phone := (getKey d "phone").getD .null,
    addresses := [], created_at := now }

/-- `create_customer` (`POST /v1/customers`) from `app.py`.  `newId` is
the ObjectId the store generates for the insert, `now` the server
timestamp.  Returns the handler result, the collection after the
request, and the number of collection operations executed. -/
def create_customer (data : Option (List (String × JVal)))
    (store : List Customer) (newId now : String) (oc : InsertOutcome) :
    HResult × List Customer × Nat :=
  if createBodyInvalid data then
    (.apiError "Name, email, and phone are required" 400 "BAD_REQUEST",
     store, 0)
  else
    match data with
    | none =>
        (.apiError "Name, email, and phone are required" 400 "BAD_REQUEST",
         store, 0)
    | some d =>
        match oc with
        | .ok =>
            let store' := store ++ [new_customer_doc d newId now]
            match find_one_by_id store' newId with
            | some c => (.ok 201 c.toDoc, store', 2)
            | none => (.ok 201 .null, store', 2)
        | .dup =>
            (.apiError
              "Email or phone already exists. (Have you created unique indexes?)"
              409 "CONFLICT", store, 1)
        | .fail msg => (.apiError msg 500 "DATABASE_ERROR", store, 1)

/-! ### `list_customers` and the `$regex` email filter

`list_customers` builds the filter
`{"email": {"$regex": email, "$options": "i"}}`.  The store evaluates the
filter string as a case-insensitive unanchored PCRE regular expression
over string-valued `email` fields (documents whose `email` is not a
string do not match a `$regex`).  The embedding models only the
fragment of PCRE in which every pattern character is either the `.`
wildcard or a plain literal; `isRegexMeta` delimits the characters
(quantifiers, anchors, classes, groups, alternation, escapes) whose
PCRE meaning the model does not implement, and every theorem about the
filter stays inside the modelled fragment: the amended claim's
substring direction assumes a pattern with no metacharacter at all,
and the counterexample uses `.`, whose wildcard meaning is modelled. -/

/-- The PCRE metacharacters (backslash, anchors, alternation, the `.`
wildcard, quantifiers including the curly-brace repetition braces,
character classes, and groups).  Outside these, a pattern character
matches itself literally. -/
def isRegexMeta (c : Char) : Bool :=
  c = '\\' || c = '^' || c = '$' || c = '.' || c = '|' || c = '?' ||
    c = '*' || c = '+' || c = '(' || c = ')' || c = '[' || c = ']' ||
    c = '\x7b' || c = '\x7d'

/-- One compiled pattern element: a literal character or the `.`
wildcard. -/
inductive RChar where
  | lit (c : Char)
  | dot

/-- Compile a filter string within the modelled fragment (`.` is the
wildcard, any other character a literal; patterns containing other
metacharacters are outside the model and no theorem quantifies over
them). -/
def parseRegex (s : String) : List RChar :=
  s.data.map fun c => if c = '.' then .dot else .lit c

/-- One pattern element against one subject character, under the `"i"`
(case-insensitive) option. -/
def rcharMatches : RChar → Char → Bool
  | .dot, _ => true
  | .lit c, d => c.toLower == d.toLower

/-- Anchored match of a pattern against a prefix of the subject. -/
def matchesHere : List RChar → List Char → Bool
  | [], _ => true
  | _ :: _, [] => false
  | r :: rs, c :: cs => rcharMatches r c && matchesHere rs cs

/-- Unanchored regex search: the pattern matches at some position of the
subject (including its end). -/
def regexSearch (p : List RChar) (s : List Char) : Bool :=
  match s with
  | [] => matchesHere p []
  | _ :: cs => matchesHere p s || regexSearch p cs

/-- Whether a stored `email` value matches the
`{"$regex": pat, "$options": "i"}` filter. -/
def emailMatchesRegex (pat : String) (v : JVal) : Bool :=
  match v with
  | .str s => regexSearch (parseRegex pat) s.data
  | _ => false

/-- `list_customers` (`GET /v1/customers`) from `app.py`.  `page` and
`limit` are the parsed query parameters (defaults 1 and 20), `email` the
optional filter (`if email:` is false for both an absent and an empty
parameter).  `offset = (page - 1) * limit`; a negative offset makes
pymongo's `.skip` raise `ValueError`, which escapes to the catch-all
handler, and pymongo's `.limit(0)` imposes no limit while a negative
limit returns at most `|limit|` documents. -/
def list_customers (page limit : Int) (email : Option String)
    (store : List Customer) : HResult × Nat :=
  let offset := (page - 1) * limit
  let filtered :=
    match email with
    | some e =>
        if e = "" then store
        else store.filter fun c => emailMatchesRegex e c.email
    | none => store
  if offset < 0 then
    (.apiError "An unexpected error occurred" 500 "INTERNAL_ERROR", 1)
  else
    let dropped := filtered.drop offset.toNat
    let data := if limit == 0 then dropped else dropped.take limit.natAbs
    (.ok 200 (.dict [("page", .num page), ("limit", .num limit),
                     ("data", .arr (data.map Customer.toDoc))]), 1)

/-- `get_customer_by_id` (`GET /v1/customers/<customer_id>`) from
`app.py`.  Second component: number of collection operations executed
(the `ObjectId` parse happens before the `find_one`). -/
def get_customer_by_id (cid : String) (store : List Customer) :
    HResult × Nat :=
  if !isValidObjectId cid then
    (.apiError "Invalid customer_id format" 400 "BAD_REQUEST", 0)
  else
    match find_one_by_id store cid with
    | none => (.apiError "Customer not found" 404 "NOT_FOUND", 1)
    | some c => (.ok 200 c.toDoc, 1)

/-- `db.customers.update_one({"_id": cid}, {"$push": {"addresses": a}})`:
append `a` to the `addresses` array of the first matching document,
leaving everything else in place; matching zero documents changes
nothing. -/
def updatePushFirst : List Customer → String → Address → List Customer
  | [], _, _ => []
  | c :: rest, cid, a =>
      if c.oid == cid then { c with addresses := c.addresses ++ [a] } :: rest
      else c :: updatePushFirst rest cid a

/-- The body-validation condition of `create_address`:
`not data or not 'line1' in data or not 'city' in data or not 'pincode' in data`. -/
def addressBodyInvalid (data : Option (List (String × JVal))) : Bool :=
  match data with
  | none => true
  | some d =>
      d.isEmpty || (getKey d "line1").isNone || (getKey d "city").isNone ||
        (getKey d "pincode").isNone

/-- The `new_address` dict built by `create_address` in `app.py`: the
server-generated `_id`, the three required fields, the optional `area`
(`data.get('area')` is `None` when absent) and the server timestamp. -/
def new_address_doc (d : List (String × JVal)) (newAddrId now : String) :
    Address :=
  { oid := newAddrId, line1 := (getKey d "line1").getD .null,
    area := (getKey d "area").getD .null,
    city := (getKey d "city").getD .null,
    pincode := (getKey d "pincode").getD .null, created_at := now }

/-- `create_address` (`POST /v1/customers/<customer_id>/addresses`) from
`app.py`.  `newAddrId` is the server-generated `ObjectId()` for the new
address, `now` the server timestamp.  Returns the handler result, the
collection after the request, and the number of collection operations
executed (id-format and body validation precede the update). -/
def create_address (cid : String) (data : Option (List (String × JVal)))
    (store : List Customer) (newAddrId now : String) :
    HResult × List Customer × Nat :=
  if !isValidObjectId cid then
    (.apiError "Invalid customer_id format" 400 "BAD_REQUEST", store, 0)
  else if addressBodyInvalid data then
    (.apiError "line1, city, and pincode are required" 400 "BAD_REQUEST",
     store, 0)
  else
    match data with
    | none =>
        (.apiError "line1, city, and pincode are required" 400 "BAD_REQUEST",
         store, 0)
    | some d =>
        let newAddr := new_address_doc d newAddrId now
        let matched := store.any fun c => c.oid == cid
        let store' := updatePushFirst store cid newAddr
        if !matched then
          (.apiError "Customer not found" 404 "NOT_FOUND", store', 1)
        else
          (.ok 201 newAddr.toDoc, store', 1)

/-- `list_addresses_for_customer` (`GET /v1/customers/<customer_id>/addresses`)
from `app.py` (the `{"addresses": 1, "_id": 0}` projection returns the
`addresses` array, which every stored customer has). -/
def list_addresses_for_customer (cid : String) (store : List Customer) :
    HResult × Nat :=
  if !isValidObjectId cid then
    (.apiError "Invalid customer_id format" 400 "BAD_REQUEST", 0)
  else
    match find_one_by_id store cid with
    | none => (.apiError "Customer not found" 404 "NOT_FOUND", 1)
    | some c => (.ok 200 (.arr (c.addresses.map Address.toDoc)), 1)

/-- `get_address_by_id` (`GET /v1/addresses/<address_id>`) from `app.py`.
`find_one({"addresses._id": oid}, {"_id": 0, "addresses.$": 1})` returns
the first document (in collection order) whose `addresses` array has a
matching element, projected to the first matching element; the handler
then answers with `customer['addresses'][0]`. -/
def get_address_by_id (aid : String) (store : List Customer) :
    HResult × Nat :=
  if !isValidObjectId aid then
    (.apiError "Invalid address_id format" 400 "BAD_REQUEST", 0)
  else
    match store.find? (fun c => c.addresses.any fun a => a.oid == aid) with
    | none => (.apiError "Address not found" 404 "NOT_FOUND", 1)
    | some c =>
        match c.addresses.find? (fun a => a.oid == aid) with
        | some a => (.ok 200 a.toDoc, 1)
        | none => (.apiError "Address not found" 404 "NOT_FOUND", 1)

/-! ## Spec-side definitions (for refinement comparisons) -/

/-- Spec-side: case-insensitive "needle is a prefix of hay". -/
def isPrefixCI : List Char → List Char → Bool
  | [], _ => true
  | _ :: _, [] => false
  | c :: cs, d :: ds => (c.toLower == d.toLower) && isPrefixCI cs ds

/-- Spec-side: the needle occurs at some position of the hay. -/
def containsCIList (n : List Char) (h : List Char) : Bool :=
  match h with
  | [] => isPrefixCI n []
  | _ :: t => isPrefixCI n h || containsCIList n t

/-- Spec-side rendering of "the filter string occurs case-insensitively
as a substring of the stored email". -/
def containsCI (needle hay : String) : Bool :=
  containsCIList needle.data hay.data

/-- Spec-side rendering of the claim's description of the masking
effect on a body value: a mapping has exactly its top-level
redaction-set keys replaced by `"REDACTED"`; anything else is left
unchanged. -/
def maskBodySpec (v : JVal) : JVal :=
  match v with
  | .dict m =>
      .dict (m.map fun kv =>
        if kv.1 ∈ PII_FIELDS then (kv.1, JVal.str "REDACTED") else kv)
  | v => v

/-- Spec-side rendering of the claim's description of
`mask_pii_processor` as a whole: only the `request_body` and
`response_body` entries change, and they change by `maskBodySpec`. -/
def maskEventSpec (ev : List (String × JVal)) : List (String × JVal) :=
  ev.map fun kv =>
    if kv.1 = "request_body" ∨ kv.1 = "response_body" then
      (kv.1, maskBodySpec kv.2)
    else kv

/-- Spec-side rendering of the claim's create-customer validation
condition: "the request body is absent or lacks any of `name`, `email`,
`phone`". -/
def createRequestLacksField (data : Option (List (String × JVal))) : Bool :=
  match data with
  | none => true
  | some d =>
      (getKey d "name").isNone || (getKey d "email").isNone ||
        (getKey d "phone").isNone

/-- A concrete valid create-customer request body (used to instantiate
theorems at concrete inputs). -/
def goodCreateBody : List (String × JVal) :=
  [("name", .str "Alice"), ("email", .str "alice@example.com"),
   ("phone", .str "555-0100")]

/-- A concrete valid create-address request body. -/
def goodAddressBody : List (String × JVal) :=
  [("line1", .str "1 Main St"), ("city", .str "Springfield"),
   ("pincode", .str "560001")]

/-- Concrete embedded addresses and customers (used to instantiate
theorems at concrete inputs). -/
def addrA1 : Address :=
  ⟨"65b000000000000000000001", .str "1 Main St", .null, .str "Springfield",
   .str "560001", "t1"⟩

def addrA2 : Address :=
  ⟨"65b000000000000000000002", .str "2 Oak Ave", .null, .str "Shelbyville",
   .str "560002", "t2"⟩

def addrA3 : Address :=
  ⟨"65b000000000000000000003", .str "3 Elm Rd", .str "North", .str "Ogdenville",
   .str "560003", "t3"⟩

def custAlice : Customer :=
  ⟨"65a000000000000000000001", .str "Alice", .str "alice@example.com",
   .str "555-0100", [addrA1], "t0"⟩

def custBob : Customer :=
  ⟨"65a000000000000000000002", .str "Bob", .str "bob@example.com",
   .str "555-0101", [addrA2, addrA3], "t0"⟩

def custCarol : Customer :=
  ⟨"65a000000000000000000003", .str "Carol", .str "abc", .str "555-0102",
   [], "t0"⟩

/-- Spec-side rendering of the claim's email-filter condition: the
stored `email` is a string and the filter occurs case-insensitively as
a substring of it. -/
def emailHasCISubstr (pat : String) (v : JVal) : Bool :=
  match v with
  | .str s => containsCI pat s
  | _ => false

/-- The top-level keys of the mapping stored under `f` in an event dict
(empty when `f` is absent or not a mapping).  Python dicts have unique
keys, which for the embedding is the `Nodup` hypothesis on these
lists. -/
def bodyKeysOf (ev : List (String × JVal)) (f : String) : List String :=
  match getKey ev f with
  | some (.dict m) => m.map Prod.fst
  | _ => []

/-- A concrete log event with PII at the top level of `request_body`, a
nested mapping, a non-mapping `response_body`, and a top-level `email`
field outside the two bodies. -/
def sampleEvent : List (String × JVal) :=
  [("event", .str "request_started"),
   ("request_body", .dict [("email", .str "alice@example.com"),
      ("nested", .dict [("email", .str "keep-nested")]),
      ("note", .num 7)]),
   ("response_body", .str "not-a-dict"),
   ("email", .str "top-level-outside-bodies")]

/-! ## Shared lemmas -/

theorem getKey_eq_none_iff (m : List (String × JVal)) (k : String) :
    getKey m k = none ↔ k ∉ m.map Prod.fst := by
  induction m with
  | nil => simp [getKey]
  | cons kv rest ih =>
      obtain ⟨k', v⟩ := kv
      by_cases h : k' = k <;> simp [getKey, h, ih, Ne.symm]

theorem mem_keys_of_getKey_some (m : List (String × JVal)) (k : String)
    (v : JVal) (h : getKey m k = some v) : k ∈ m.map Prod.fst := by
  by_contra hmem
  rw [← getKey_eq_none_iff] at hmem
  rw [hmem] at h
  exact Option.noConfusion h

/-! ## Claim theorems -/

/-- Claim C1: for every log event emitted on any emission path (console
and remote sink), if the emitted event's `request_body` or
`response_body` field is a mapping, then every key of that mapping that
is in the redaction set `{email, phone, line1}` has the literal value
`"REDACTED"`.  Both sinks format the event dict produced by
`structlogPipeline`, so the property is stated of that dict, for every
incoming event, logger name, level, timestamp, request state and
correlation header. -/
theorem emitted_events_are_redacted (ev : List (String × JVal))
    (name lvl ts : String) (inFlight : Bool) (hdr : Option String) :
    redactionOk (structlogPipeline name lvl ts inFlight hdr ev) = true := by
  cases inFlight <;> cases hdr <;> rfl

/-- Claim C6 (divergence witness): the correlation-id lambda in
`setup_logging` returns a fresh dict instead of augmenting the incoming
event dict, so the event handed to the formatter for emission consists
solely of `correlation_id`: the logger name, severity level, ISO-8601
timestamp and the event's own fields stamped by the earlier processors
are all dropped.  Evaluated at a concrete `request_started` event with a
request in flight. -/
theorem pipeline_drops_metadata_on_concrete_event :
    structlogPipeline "customer-service" "info" "2026-01-01T00:00:00Z" true
        (some "abc-123") [("event", .str "request_started")]
      = [("correlation_id", .str "abc-123")]
    ∧ getKey (structlogPipeline "customer-service" "info"
        "2026-01-01T00:00:00Z" true (some "abc-123")
        [("event", .str "request_started")]) "logger" = none
    ∧ getKey (structlogPipeline "customer-service" "info"
        "2026-01-01T00:00:00Z" true (some "abc-123")
        [("event", .str "request_started")]) "level" = none
    ∧ getKey (structlogPipeline "customer-service" "info"
        "2026-01-01T00:00:00Z" true (some "abc-123")
        [("event", .str "request_started")]) "timestamp" = none
    ∧ getKey (structlogPipeline "customer-service" "info"
        "2026-01-01T00:00:00Z" true (some "abc-123")
        [("event", .str "request_started")]) "event" = none :=
  ⟨rfl, rfl, rfl, rfl, rfl⟩

/-- Claim C2 (divergence witness): the `DATABASE_ERROR` path of
`create_customer` raises `ApiError(str(e), 500, "DATABASE_ERROR")`, and
`handle_api_error` returns that message verbatim, so the error
envelope's message is the underlying exception's text — not a fixed
generic string.  Evaluated at a concrete failing insert whose exception
message carries internal connection details. -/
theorem database_error_message_leaks_exception :
    (create_customer
        (some [("name", .str "Alice"), ("email", .str "alice@example.com"),
               ("phone", .str "555-0100")])
        [] "65a000000000000000000001" "2026-01-01T00:00:00Z"
        (.fail "could not connect to mongodb at 10.0.0.5:27017")).1
      = .apiError "could not connect to mongodb at 10.0.0.5:27017" 500
          "DATABASE_ERROR"
    ∧ (handle_api_error "could not connect to mongodb at 10.0.0.5:27017" 500
        "DATABASE_ERROR" (before_request_ctx none "/v1/customers" "POST")).1
      = errorEnvelope "DATABASE_ERROR"
          "could not connect to mongodb at 10.0.0.5:27017" .null
    ∧ "could not connect to mongodb at 10.0.0.5:27017"
        ≠ "An unexpected error occurred" :=
  ⟨rfl, rfl, by decide⟩

/-- Claim C9: every error response body has exactly the shape
`{"error": {"code": ..., "message": ..., "correlationId": ...}}` for
each of the three registered handlers (`ApiError`, routing 404,
catch-all), where `correlationId` is the request's `X-Correlation-Id`
header value when it was supplied and `null` (the bound Python `None`)
when it was absent — never a server-generated id and never an error. -/
theorem error_envelope_shape_and_correlation (hdr : Option String)
    (path method message code excMsg : String) (status : Nat) :
    handle_api_error message status code (before_request_ctx hdr path method)
      = (.dict [("error", .dict [("code", .str code),
          ("message", .str message),
          ("correlationId",
            match hdr with | some h => .str h | none => .null)])], status)
    ∧ handle_not_found (before_request_ctx hdr path method)
      = (.dict [("error", .dict [("code", .str "NOT_FOUND"),
          ("message", .str "The requested resource was not found"),
          ("correlationId",
            match hdr with | some h => .str h | none => .null)])], 404)
    ∧ handle_generic_error excMsg (before_request_ctx hdr path method)
      = (.dict [("error", .dict [("code", .str "INTERNAL_ERROR"),
          ("message", .str "An unexpected error occurred"),
          ("correlationId",
            match hdr with | some h => .str h | none => .null)])], 500) := by
  cases hdr <;> exact ⟨rfl, rfl, rfl⟩

/-- Claim C5: for every malformed identifier (not a well-formed
ObjectId string) supplied to `get_customer_by_id`, `create_address`,
`list_addresses_for_customer` or `get_address_by_id`, the result is the
400 `ApiError` (so never 404 and never 500), no collection operation is
executed (operation count 0), and the store is unchanged. -/
theorem malformed_id_yields_400_and_no_store_op (s : String)
    (h : isValidObjectId s = false) (store : List Customer)
    (data : Option (List (String × JVal))) (newAddrId now : String) :
    get_customer_by_id s store
      = (.apiError "Invalid customer_id format" 400 "BAD_REQUEST", 0)
    ∧ create_address s data store newAddrId now
      = (.apiError "Invalid customer_id format" 400 "BAD_REQUEST", store, 0)
    ∧ list_addresses_for_customer s store
      = (.apiError "Invalid customer_id format" 400 "BAD_REQUEST", 0)
    ∧ get_address_by_id s store
      = (.apiError "Invalid address_id format" 400 "BAD_REQUEST", 0) := by
  refine ⟨?_, ?_, ?_, ?_⟩ <;>
    simp [get_customer_by_id, create_address, list_addresses_for_customer,
      get_address_by_id, h]

/-- Claim C5, witness: the theorem applied to the malformed identifier
`"zzz"` against the empty store. -/
theorem malformed_id_yields_400_witness :
    get_customer_by_id "zzz" []
      = (.apiError "Invalid customer_id format" 400 "BAD_REQUEST", 0)
    ∧ create_address "zzz" none [] "65a000000000000000000002" "t"
      = (.apiError "Invalid customer_id format" 400 "BAD_REQUEST", [], 0)
    ∧ list_addresses_for_customer "zzz" []
      = (.apiError "Invalid customer_id format" 400 "BAD_REQUEST", 0)
    ∧ get_address_by_id "zzz" []
      = (.apiError "Invalid address_id format" 400 "BAD_REQUEST", 0) :=
  malformed_id_yields_400_and_no_store_op "zzz" (by decide) [] none
    "65a000000000000000000002" "t"

theorem updatePushFirst_not_mem (store : List Customer) (cid : String)
    (a : Address) (h : ∀ c ∈ store, c.oid ≠ cid) :
    updatePushFirst store cid a = store := by
  induction store with
  | nil => rfl
  | cons c rest ih =>
      have hc : (c.oid == cid) = false := by
        simp [h c (List.mem_cons_self c rest)]
      simp [updatePushFirst, hc,
        ih fun x hx => h x (List.mem_cons_of_mem c hx)]

theorem createBodyInvalid_eq_lacks (data : Option (List (String × JVal))) :
    createBodyInvalid data = createRequestLacksField data := by
  cases data with
  | none => rfl
  | some d =>
      cases d with
      | nil => rfl
      | cons kv t => simp [createBodyInvalid, createRequestLacksField]

theorem find_one_append_fresh (store : List Customer) (c : Customer)
    (oid : String) (hoid : c.oid = oid) (h : ∀ x ∈ store, x.oid ≠ oid) :
    find_one_by_id (store ++ [c]) oid = some c := by
  induction store with
  | nil => simp [find_one_by_id, List.find?, hoid]
  | cons x rest ih =>
      have hx : (x.oid == oid) = false := by
        simp [h x (List.mem_cons_self x rest)]
      simpa [find_one_by_id, List.find?, hx] using
        ih fun y hy => h y (List.mem_cons_of_mem x hy)

/-- Claim C4: for every well-formed customer id that matches no stored
customer, `create_address` (with a body that passes field validation)
returns the 404 `NotFoundError` and leaves the store completely
unchanged — the `$push` update matched zero documents and was a no-op,
so no address was created anywhere. -/
theorem create_address_missing_customer_404 (cid : String)
    (data : Option (List (String × JVal))) (store : List Customer)
    (newAddrId now : String) (hvalid : isValidObjectId cid = true)
    (hbody : addressBodyInvalid data = false)
    (habs : ∀ c ∈ store, c.oid ≠ cid) :
    create_address cid data store newAddrId now
      = (.apiError "Customer not found" 404 "NOT_FOUND", store, 1) := by
  have hany : (store.any fun c => c.oid == cid) = false := by
    rw [List.any_eq_false]
    intro c hc
    simp [habs c hc]
  cases data with
  | none => simp [addressBodyInvalid] at hbody
  | some d =>
      have hpush :=
        updatePushFirst_not_mem store cid (new_address_doc d newAddrId now)
          habs
      simp [create_address, hvalid, hbody, hany, hpush]

/-- Claim C4, witness: the theorem applied to a well-formed ObjectId
against the empty store with a valid address body. -/
theorem create_address_missing_customer_404_witness :
    create_address "65a000000000000000000001" (some goodAddressBody) []
        "65a000000000000000000002" "2026-01-01T00:00:00Z"
      = (.apiError "Customer not found" 404 "NOT_FOUND", [], 1) :=
  create_address_missing_customer_404 "65a000000000000000000001"
    (some goodAddressBody) [] "65a000000000000000000002"
    "2026-01-01T00:00:00Z" (by decide) (by decide) (by simp)

/-- Claim C3: `create_customer` returns 400 if and only if the request
body is absent or lacks one of `name`, `email`, `phone`, and that
failure is decided before any store call (zero collection operations,
store unchanged); on a uniqueness-constraint violation it returns 409;
on any other store failure it returns 500; otherwise it returns 201
with the full stored document, which has the store-generated id, the
server-set `created_at` and an empty `addresses` sequence. -/
theorem create_customer_spec (data : Option (List (String × JVal)))
    (store : List Customer) (newId now : String) (oc : InsertOutcome)
    (hfresh : ∀ c ∈ store, c.oid ≠ newId) :
    ((create_customer data store newId now oc).1.status = 400
        ↔ createRequestLacksField data = true)
    ∧ (createRequestLacksField data = true →
        create_customer data store newId now oc
          = (.apiError "Name, email, and phone are required" 400
              "BAD_REQUEST", store, 0))
    ∧ (createRequestLacksField data = false → oc = .dup →
        (create_customer data store newId now oc).1
          = .apiError
              "Email or phone already exists. (Have you created unique indexes?)"
              409 "CONFLICT")
    ∧ (∀ msg, createRequestLacksField data = false → oc = .fail msg →
        (create_customer data store newId now oc).1
          = .apiError msg 500 "DATABASE_ERROR")
    ∧ (∀ d, data = some d → createRequestLacksField data = false →
        oc = .ok →
        create_customer data store newId now oc
          = (.ok 201 (Customer.toDoc (new_customer_doc d newId now)),
             store ++ [new_customer_doc d newId now], 2)) := by
  have hbody := createBodyInvalid_eq_lacks data
  cases hl : createRequestLacksField data with
  | true =>
      have h400 : create_customer data store newId now oc
          = (.apiError "Name, email, and phone are required" 400
              "BAD_REQUEST", store, 0) := by
        unfold create_customer
        rw [hbody, hl]
        simp
      exact ⟨by simp [h400, HResult.status], fun _ => h400,
        fun hf => absurd hf (by simp),
        fun msg hf => absurd hf (by simp),
        fun d hd hf => absurd hf (by simp)⟩
  | false =>
      cases data with
      | none => exact absurd hl (by simp [createRequestLacksField])
      | some d =>
          have hfind :
              find_one_by_id (store ++ [new_customer_doc d newId now]) newId
                = some (new_customer_doc d newId now) :=
            find_one_append_fresh store (new_customer_doc d newId now) newId
              rfl hfresh
          have hrun :
              create_customer (some d) store newId now oc
                = match oc with
                  | .ok =>
                      (.ok 201 (Customer.toDoc (new_customer_doc d newId now)),
                       store ++ [new_customer_doc d newId now], 2)
                  | .dup =>
                      (.apiError
                        "Email or phone already exists. (Have you created unique indexes?)"
                        409 "CONFLICT", store, 1)
                  | .fail msg =>
                      (.apiError msg 500 "DATABASE_ERROR", store, 1) := by
            unfold create_customer
            rw [hbody, hl]
            cases oc with
            | ok => simp [hfind]
            | dup => simp
            | fail msg => simp
          refine ⟨?_, fun hf => absurd hf (by simp), ?_, ?_, ?_⟩
          · cases oc <;> simp [hrun, HResult.status]
          · intro _ hoc
            rw [hoc] at hrun ⊢
            simp [hrun]
          · intro msg _ hoc
            rw [hoc] at hrun ⊢
            simp [hrun]
          · intro d' hd' _ hoc
            cases hd'
            rw [hoc] at hrun ⊢
            simpa using hrun

/-- Claim C3, witness: the theorem applied to a valid request body
against the empty store with a successful insert. -/
theorem create_customer_spec_witness :
    ((create_customer (some goodCreateBody) [] "65a000000000000000000001"
        "2026-01-01T00:00:00Z" .ok).1.status = 400
      ↔ createRequestLacksField (some goodCreateBody) = true)
    ∧ (createRequestLacksField (some goodCreateBody) = true →
        create_customer (some goodCreateBody) [] "65a000000000000000000001"
            "2026-01-01T00:00:00Z" .ok
          = (.apiError "Name, email, and phone are required" 400
              "BAD_REQUEST", [], 0))
    ∧ (createRequestLacksField (some goodCreateBody) = false →
        InsertOutcome.ok = .dup →
        (create_customer (some goodCreateBody) [] "65a000000000000000000001"
            "2026-01-01T00:00:00Z" .ok).1
          = .apiError
              "Email or phone already exists. (Have you created unique indexes?)"
              409 "CONFLICT")
    ∧ (∀ msg, createRequestLacksField (some goodCreateBody) = false →
        InsertOutcome.ok = .fail msg →
        (create_customer (some goodCreateBody) [] "65a000000000000000000001"
            "2026-01-01T00:00:00Z" .ok).1
          = .apiError msg 500 "DATABASE_ERROR")
    ∧ (∀ d, some goodCreateBody = some d →
        createRequestLacksField (some goodCreateBody) = false →
        InsertOutcome.ok = .ok →
        create_customer (some goodCreateBody) [] "65a000000000000000000001"
            "2026-01-01T00:00:00Z" .ok
          = (.ok 201
              (Customer.toDoc
                (new_customer_doc d "65a000000000000000000001"
                  "2026-01-01T00:00:00Z")),
             [new_customer_doc d "65a000000000000000000001"
                "2026-01-01T00:00:00Z"], 2)) :=
  create_customer_spec (some goodCreateBody) [] "65a000000000000000000001"
    "2026-01-01T00:00:00Z" .ok (by simp)

/-- Claim C8: for every well-formed address id, `get_address_by_id`
returns 404 exactly when no customer's `addresses` sequence contains an
address with that id, and — whenever some customer's sequence contains
a matching address and that address is the only match anywhere —
returns 200 with exactly that address, regardless of which customer
owns it and of its position in the sequence. -/
theorem get_address_by_id_spec (aid : String) (store : List Customer)
    (hvalid : isValidObjectId aid = true) :
    ((get_address_by_id aid store).1
        = .apiError "Address not found" 404 "NOT_FOUND"
      ↔ ∀ c ∈ store, ∀ a ∈ c.addresses, a.oid ≠ aid)
    ∧ (∀ c a, c ∈ store → a ∈ c.addresses → a.oid = aid →
        (∀ c' ∈ store, ∀ a' ∈ c'.addresses, a'.oid = aid → a' = a) →
        (get_address_by_id aid store).1 = .ok 200 a.toDoc) := by
  have hred : get_address_by_id aid store
      = match store.find? (fun c => c.addresses.any fun a => a.oid == aid)
          with
        | none => (.apiError "Address not found" 404 "NOT_FOUND", 1)
        | some c =>
            match c.addresses.find? (fun a => a.oid == aid) with
            | some a => (.ok 200 a.toDoc, 1)
            | none => (.apiError "Address not found" 404 "NOT_FOUND", 1) := by
    unfold get_address_by_id
    rw [hvalid]
    rfl
  cases hf : store.find? (fun c => c.addresses.any fun a => a.oid == aid) with
  | none =>
      rw [hf] at hred
      have hnone := List.find?_eq_none.mp hf
      refine ⟨⟨fun _ c hc a ha heq => ?_, fun _ => by rw [hred]⟩,
        fun c a hc ha heq _ => ?_⟩
      · have hno := hnone c hc
        simp only [List.any_eq_true, beq_iff_eq, not_exists, not_and] at hno
        exact hno a ha heq
      · have hno := hnone c hc
        simp only [List.any_eq_true, beq_iff_eq, not_exists, not_and] at hno
        exact absurd heq (hno a ha)
  | some c =>
      rw [hf] at hred
      have hpc := List.find?_some hf
      have hcmem : c ∈ store := List.mem_of_find?_eq_some hf
      obtain ⟨a0, ha0, hbeq⟩ := List.any_eq_true.mp hpc
      have hsome : (c.addresses.find? fun a => a.oid == aid).isSome := by
        rw [List.find?_isSome]
        exact ⟨a0, ha0, hbeq⟩
      obtain ⟨a1, ha1⟩ := Option.isSome_iff_exists.mp hsome
      have hred2 : get_address_by_id aid store
          = match c.addresses.find? (fun a => a.oid == aid) with
            | some a => (.ok 200 a.toDoc, 1)
            | none => (.apiError "Address not found" 404 "NOT_FOUND", 1) := by
        rw [hred]
      rw [ha1] at hred2
      have ha1mem : a1 ∈ c.addresses := List.mem_of_find?_eq_some ha1
      have ha1oid : a1.oid = aid := by
        have := List.find?_some ha1
        simpa using this
      refine ⟨⟨fun h404 => ?_, fun hall => ?_⟩,
        fun c' a hc' ha' heq huniq => ?_⟩
      · rw [hred2] at h404
        exact absurd h404 (by simp)
      · exact absurd ha1oid (hall c hcmem a1 ha1mem)
      · have he : a1 = a := huniq c hcmem a1 ha1mem ha1oid
        rw [hred2, he]

/-- Claim C8, witness: the theorem applied to the id of an address
stored in the second position of the second customer's sequence. -/
theorem get_address_by_id_spec_witness :
    ((get_address_by_id "65b000000000000000000003" [custAlice, custBob]).1
        = .apiError "Address not found" 404 "NOT_FOUND"
      ↔ ∀ c ∈ [custAlice, custBob], ∀ a ∈ c.addresses,
          a.oid ≠ "65b000000000000000000003")
    ∧ (∀ c a, c ∈ [custAlice, custBob] → a ∈ c.addresses →
        a.oid = "65b000000000000000000003" →
        (∀ c' ∈ [custAlice, custBob], ∀ a' ∈ c'.addresses,
          a'.oid = "65b000000000000000000003" → a' = a) →
        (get_address_by_id "65b000000000000000000003"
            [custAlice, custBob]).1 = .ok 200 a.toDoc) :=
  get_address_by_id_spec "65b000000000000000000003" [custAlice, custBob]
    (by decide)

theorem matchesHere_nodot (n : List Char) (s : List Char)
    (h : ∀ c ∈ n, c ≠ '.') :
    matchesHere (n.map fun c => if c = '.' then RChar.dot else RChar.lit c) s
      = isPrefixCI n s := by
  induction n generalizing s with
  | nil => cases s <;> rfl
  | cons c cs ih =>
      cases s with
      | nil => rfl
      | cons d ds =>
          have hc : ¬(c = '.') := h c (List.mem_cons_self c cs)
          simp only [List.map_cons, matchesHere, if_neg hc, rcharMatches,
            isPrefixCI]
          rw [ih ds fun x hx => h x (List.mem_cons_of_mem c hx)]

theorem regexSearch_nodot (n : List Char) (s : List Char)
    (h : ∀ c ∈ n, c ≠ '.') :
    regexSearch (n.map fun c => if c = '.' then RChar.dot else RChar.lit c) s
      = containsCIList n s := by
  induction s with
  | nil => simpa [regexSearch, containsCIList] using matchesHere_nodot n [] h
  | cons d ds ih =>
      simp only [regexSearch, containsCIList,
        matchesHere_nodot n (d :: ds) h, ih]

theorem emailMatches_eq_substr (e : String) (v : JVal)
    (hdot : e.data.all (fun c => c != '.') = true) :
    emailMatchesRegex e v = emailHasCISubstr e v := by
  have h : ∀ c ∈ e.data, c ≠ '.' := by
    intro c hc
    have := List.all_eq_true.mp hdot c hc
    simpa using this
  cases v with
  | str s => exact regexSearch_nodot e.data s.data h
  | null => rfl
  | num n => rfl
  | bool b => rfl
  | arr xs => rfl
  | dict m => rfl

/-- Claim C7 (counterexample to the claim as stated, in three parts).
First, the email filter string is passed to the store as a regular
expression, not as a literal substring: with the single stored customer
whose email is `"abc"`, the filter `"a.c"` does not occur
case-insensitively as a substring of `"abc"`, yet `list_customers`
includes the customer in the returned data, because `.` matches any
character.  Second, with `limit = 0` the store imposes no limit, so one
document is returned where the claim allows at most `limit = 0`.
Third, with `page = 0` the offset is negative, pymongo's `skip` raises,
and the response is the 500 envelope rather than a 200 envelope that
skipped `(page-1)*limit = -20` documents. -/
theorem list_customers_regex_not_substring :
    ((list_customers 1 20 (some "a.c") [custCarol]).1
        = .ok 200 (.dict [("page", .num 1), ("limit", .num 20),
            ("data", .arr [custCarol.toDoc])])
      ∧ containsCI "a.c" "abc" = false)
    ∧ (list_customers 1 0 none [custCarol]).1
        = .ok 200 (.dict [("page", .num 1), ("limit", .num 0),
            ("data", .arr [custCarol.toDoc])])
    ∧ (list_customers 0 20 none [custCarol]).1
        = .apiError "An unexpected error occurred" 500 "INTERNAL_ERROR" :=
  ⟨⟨rfl, by decide⟩, rfl, rfl⟩

/-- Claim C7, amended: for page ≥ 1 and limit ≥ 1 (the counterexample
exhibits the violations at limit 0 and page 0), `list_customers` skips
exactly `(page-1)*limit` documents and returns at most `limit`
documents in the envelope `{page, limit, data}` with status 200 and no
total-count field; the email filter is evaluated as a case-insensitive
unanchored regular expression, which — for every filter string
containing no regex metacharacter at all (`isRegexMeta`; patterns with
metacharacters are outside the modelled regex fragment, and the
counterexample shows the claim failing already at `.`) — keeps a
stored customer if and only if the filter occurs case-insensitively as
a substring of the stored email (e.g. filter `"ALICE"` matches stored
email `"alice@example.com"`). -/
theorem list_customers_amended (page limit : Int) (e : String)
    (store : List Customer) (hp : 1 ≤ page) (hl : 1 ≤ limit) (he : e ≠ "")
    (hmeta : e.data.all (fun c => !(isRegexMeta c)) = true) :
    list_customers page limit (some e) store
      = (.ok 200 (.dict [("page", .num page), ("limit", .num limit),
          ("data", .arr (List.map Customer.toDoc
            (List.take limit.toNat
              (List.drop ((page - 1) * limit).toNat
                (List.filter (fun (c : Customer) => emailHasCISubstr e c.email)
                  store)))))]), 1) := by
  have hdot : e.data.all (fun c => c != '.') = true := by
    rw [List.all_eq_true] at hmeta ⊢
    intro c hc
    have h1 := hmeta c hc
    rw [Bool.not_eq_true'] at h1
    rw [bne_iff_ne]
    intro he2
    rw [he2] at h1
    exact Bool.noConfusion ((rfl : isRegexMeta '.' = true).symm.trans h1)
  have hfil : (store.filter fun c => emailMatchesRegex e c.email)
      = store.filter fun c => emailHasCISubstr e c.email := by
    apply List.filter_congr
    intro c _
    exact emailMatches_eq_substr e c.email hdot
  have hoff : ¬((page - 1) * limit < 0) := by
    have h1 : 0 ≤ page - 1 := by omega
    have h2 : 0 ≤ limit := by omega
    exact not_lt.mpr (mul_nonneg h1 h2)
  have hlim : (limit == 0) = false := by
    rw [beq_eq_false_iff_ne]
    omega
  have hnat : limit.natAbs = limit.toNat := by omega
  simp only [list_customers, if_neg he, hfil, if_neg hoff, hlim, hnat,
    Bool.false_eq_true, if_false]

/-- Claim C7, witness: the theorem applied to the filter `"ALICE"`
against a store holding a customer with email `"alice@example.com"`. -/
theorem list_customers_amended_witness :
    list_customers 1 20 (some "ALICE") [custAlice]
      = (.ok 200 (.dict [("page", .num 1), ("limit", .num 20),
          ("data", .arr [custAlice.toDoc])]), 1) :=
  list_customers_amended 1 20 "ALICE" [custAlice] (by decide) (by decide)
    (by decide) (by decide)

theorem getKey_of_mem_nodup (m : List (String × JVal)) (kv : String × JVal)
    (hnd : (m.map Prod.fst).Nodup) (hmem : kv ∈ m) :
    getKey m kv.1 = some kv.2 := by
  induction m with
  | nil => cases hmem
  | cons hd rest ih =>
      obtain ⟨k1, v1⟩ := hd
      rw [List.map_cons, List.nodup_cons] at hnd
      rcases List.mem_cons.mp hmem with heq | hmem'
      · subst heq
        simp [getKey]
      · have hk : ¬(k1 = kv.1) := by
          intro h
          have hmm : kv.1 ∈ rest.map Prod.fst :=
            List.mem_map_of_mem Prod.fst hmem'
          rw [← h] at hmm
          exact hnd.1 hmm
        simp [getKey, hk, ih hnd.2 hmem']

theorem map_keyed_not_mem (m : List (String × JVal)) (k : String)
    (v : JVal) (h : k ∉ m.map Prod.fst) :
    (m.map fun kv => if kv.1 = k then (k, v) else kv) = m := by
  induction m with
  | nil => rfl
  | cons hd rest ih =>
      obtain ⟨k1, v1⟩ := hd
      rw [List.map_cons] at h
      simp only [List.mem_cons, not_or] at h
      have h1 : ¬(k1 = k) := fun he => h.1 he.symm
      simp [h1, ih h.2]

theorem setKey_eq_map_of_mem (m : List (String × JVal)) (k : String)
    (v : JVal) (hnd : (m.map Prod.fst).Nodup) (hmem : k ∈ m.map Prod.fst) :
    setKey m k v = m.map fun kv => if kv.1 = k then (k, v) else kv := by
  induction m with
  | nil => cases hmem
  | cons hd rest ih =>
      obtain ⟨k1, v1⟩ := hd
      rw [List.map_cons, List.nodup_cons] at hnd
      by_cases h1 : k1 = k
      · subst h1
        simp [setKey, map_keyed_not_mem rest k1 v hnd.1]
      · have hmem' : k ∈ rest.map Prod.fst := by
          rcases List.mem_cons.mp hmem with h | h
          · exact absurd h.symm h1
          · exact h
        simp [setKey, h1, ih hnd.2 hmem']

theorem keys_setKey_of_mem (m : List (String × JVal)) (k : String)
    (v : JVal) (hnd : (m.map Prod.fst).Nodup) (hmem : k ∈ m.map Prod.fst) :
    (setKey m k v).map Prod.fst = m.map Prod.fst := by
  rw [setKey_eq_map_of_mem m k v hnd hmem, List.map_map]
  apply List.map_congr_left
  intro kv _
  by_cases h : kv.1 = k <;> simp [h]

theorem getKey_map_keyed_ne (m : List (String × JVal)) (k k₀ : String)
    (g : JVal → JVal) (hne : ¬(k = k₀)) :
    getKey (m.map fun kv => if kv.1 = k₀ then (kv.1, g kv.2) else kv) k
      = getKey m k := by
  induction m with
  | nil => rfl
  | cons hd rest ih =>
      obtain ⟨k1, v1⟩ := hd
      rw [List.map_cons]
      show getKey ((if k1 = k₀ then (k1, g v1) else (k1, v1)) ::
          rest.map fun kv => if kv.1 = k₀ then (kv.1, g kv.2) else kv) k
        = getKey ((k1, v1) :: rest) k
      by_cases h1 : k1 = k₀
      · rw [if_pos h1]
        have h2 : ¬(k1 = k) := fun h => hne (h.symm.trans h1)
        show (if k1 = k then some (g v1) else
            getKey (rest.map fun kv =>
              if kv.1 = k₀ then (kv.1, g kv.2) else kv) k)
          = if k1 = k then some v1 else getKey rest k
        rw [if_neg h2, if_neg h2, ih]
      · rw [if_neg h1]
        show (if k1 = k then some v1 else
            getKey (rest.map fun kv =>
              if kv.1 = k₀ then (kv.1, g kv.2) else kv) k)
          = if k1 = k then some v1 else getKey rest k
        by_cases h2 : k1 = k
        · rw [if_pos h2, if_pos h2]
        · rw [if_neg h2, if_neg h2, ih]

theorem keys_map_keyed (m : List (String × JVal)) (k₀ : String)
    (g : JVal → JVal) :
    ((m.map fun kv => if kv.1 = k₀ then (kv.1, g kv.2) else kv).map
        Prod.fst) = m.map Prod.fst := by
  rw [List.map_map]
  apply List.map_congr_left
  intro kv _
  by_cases h : kv.1 = k₀ <;> simp [h]

theorem maskBodyKeys_eq_map (ks : List String) (m : List (String × JVal))
    (hnd : (m.map Prod.fst).Nodup) :
    maskBodyKeys ks m
      = m.map fun kv =>
          if kv.1 ∈ ks then (kv.1, JVal.str "REDACTED") else kv := by
  induction ks generalizing m with
  | nil => simp [maskBodyKeys]
  | cons k ks ih =>
      rw [maskBodyKeys]
      cases h : getKey m k with
      | none =>
          rw [ih m hnd]
          apply List.map_congr_left
          intro kv hkv
          have hk : ¬(kv.1 = k) := by
            intro he
            exact (getKey_eq_none_iff m k).mp h
              (he ▸ List.mem_map_of_mem Prod.fst hkv)
          simp [List.mem_cons, hk]
      | some v =>
          have hmem : k ∈ m.map Prod.fst := mem_keys_of_getKey_some m k v h
          have hset := setKey_eq_map_of_mem m k (.str "REDACTED") hnd hmem
          have hndset : ((setKey m k (JVal.str "REDACTED")).map
              Prod.fst).Nodup := by
            rw [keys_setKey_of_mem m k (.str "REDACTED") hnd hmem]
            exact hnd
          rw [ih _ hndset, hset, List.map_map]
          apply List.map_congr_left
          intro kv _
          by_cases hk : kv.1 = k
          · simp [hk, List.mem_cons]
          · simp [hk, List.mem_cons]

theorem maskField_eq_map (ev : List (String × JVal)) (f : String)
    (hnd : (ev.map Prod.fst).Nodup) (hbody : (bodyKeysOf ev f).Nodup) :
    maskField ev f
      = ev.map fun kv =>
          if kv.1 = f then (kv.1, maskBodySpec kv.2) else kv := by
  cases h : getKey ev f with
  | none =>
      have hLHS : maskField ev f = ev := by
        unfold maskField
        rw [h]
      rw [hLHS]
      refine Eq.symm ((List.map_congr_left ?_).trans (List.map_id ev))
      intro kv hkv
      have hk : ¬(kv.1 = f) := by
        intro he
        apply (getKey_eq_none_iff ev f).mp h
        rw [← he]
        exact List.mem_map_of_mem Prod.fst hkv
      rw [if_neg hk]
      rfl
  | some v =>
      have hval : ∀ kv ∈ ev, kv.1 = f → kv.2 = v := by
        intro kv hkv he
        have h2 := getKey_of_mem_nodup ev kv hnd hkv
        rw [he, h] at h2
        exact (Option.some.inj h2).symm
      have hmem : f ∈ ev.map Prod.fst := mem_keys_of_getKey_some ev f v h
      have hid : maskBodySpec v = v →
          ev = ev.map fun kv =>
            if kv.1 = f then (kv.1, maskBodySpec kv.2) else kv := by
        intro hmask
        refine Eq.symm ((List.map_congr_left ?_).trans (List.map_id ev))
        intro kv hkv
        by_cases hk : kv.1 = f
        · have h2 := hval kv hkv hk
          have h3 : maskBodySpec kv.2 = kv.2 := by rw [h2, hmask]
          rw [if_pos hk, h3]
          rfl
        · rw [if_neg hk]
          rfl
      cases v with
      | dict m =>
          have hmnd : (m.map Prod.fst).Nodup := by
            have hbk : bodyKeysOf ev f = m.map Prod.fst := by
              unfold bodyKeysOf
              rw [h]
            rw [hbk] at hbody
            exact hbody
          have hLHS : maskField ev f
              = setKey ev f (.dict (maskBodyKeys PII_FIELDS m)) := by
            unfold maskField
            rw [h]
          rw [hLHS, setKey_eq_map_of_mem ev f _ hnd hmem]
          apply List.map_congr_left
          intro kv hkv
          by_cases hk : kv.1 = f
          · rw [if_pos hk, if_pos hk, hval kv hkv hk, hk]
            simp only [maskBodySpec]
            rw [maskBodyKeys_eq_map PII_FIELDS m hmnd]
          · rw [if_neg hk, if_neg hk]
      | null =>
          have hLHS : maskField ev f = ev := by
            unfold maskField
            rw [h]
          rw [hLHS]
          exact hid rfl
      | str s =>
          have hLHS : maskField ev f = ev := by
            unfold maskField
            rw [h]
          rw [hLHS]
          exact hid rfl
      | num n =>
          have hLHS : maskField ev f = ev := by
            unfold maskField
            rw [h]
          rw [hLHS]
          exact hid rfl
      | bool b =>
          have hLHS : maskField ev f = ev := by
            unfold maskField
            rw [h]
          rw [hLHS]
          exact hid rfl
      | arr xs =>
          have hLHS : maskField ev f = ev := by
            unfold maskField
            rw [h]
          rw [hLHS]
          exact hid rfl

/-- Claim C10: `mask_pii_processor` is shallow and frame-preserving.
Mutation is modelled by the returned dict, and the theorem states that
it equals the input dict with exactly the `request_body` and
`response_body` entries updated in place, each by replacing only its
own top-level `email`/`phone`/`line1` keys with `"REDACTED"`: the key
structure and order are preserved, values under every other key, bodies
that are not mappings, PII keys nested below the top level of the two
bodies, and every other field of the event are left unchanged. -/
theorem mask_pii_processor_frame (ev : List (String × JVal))
    (hnd : (ev.map Prod.fst).Nodup)
    (hreq : (bodyKeysOf ev "request_body").Nodup)
    (hres : (bodyKeysOf ev "response_body").Nodup) :
    mask_pii_processor ev = maskEventSpec ev := by
  rw [mask_pii_processor, maskField_eq_map ev "request_body" hnd hreq]
  have hnd2 : ((ev.map fun kv =>
      if kv.1 = "request_body" then (kv.1, maskBodySpec kv.2)
      else kv).map Prod.fst).Nodup := by
    rw [keys_map_keyed ev "request_body" maskBodySpec]
    exact hnd
  have hres2 : (bodyKeysOf (ev.map fun kv =>
      if kv.1 = "request_body" then (kv.1, maskBodySpec kv.2) else kv)
      "response_body").Nodup := by
    rw [bodyKeysOf,
      getKey_map_keyed_ne ev "response_body" "request_body" maskBodySpec
        (by decide)]
    rw [bodyKeysOf] at hres
    exact hres
  rw [maskField_eq_map _ "response_body" hnd2 hres2, List.map_map]
  rw [maskEventSpec]
  apply List.map_congr_left
  intro kv _
  by_cases h1 : kv.1 = "request_body"
  · have h2 : ¬(kv.1 = "response_body") := by
      rw [h1]
      decide
    simp [h1, h2]
  · by_cases h2 : kv.1 = "response_body" <;> simp [h1, h2]

/-- Claim C10, witness: the theorem applied to a concrete event with
top-level PII inside `request_body`, a nested mapping that must stay
untouched, a non-mapping `response_body`, and a top-level `email` field
outside the bodies. -/
theorem mask_pii_processor_frame_witness :
    mask_pii_processor sampleEvent = maskEventSpec sampleEvent :=
  mask_pii_processor_frame sampleEvent (by decide) (by decide) (by decide)

end CustomerService
